import Mathlib

/-!
# Verification of the Vicpack packet decoder

A shallow embedding of the `vicpack` telemetry-packet decoder
(`vicpackdecoder/vicpack.py`) together with theorems settling the frozen
claims about its specification.

Conventions used in the embedding:
* the packet payload (`self.pck`, a Python list of ints obtained from hex
  pairs) is a `List ℕ`;
* Python list indexing that can raise `IndexError` is modelled with
  `List.get?`; a failed read surfaces as `Except.error` (`OutOfRange` for
  the measurement iterator, `UnknownSensorIndex` for the sensor-name
  table, matching the error taxonomy of the spec);
* raw 32-bit values are `ℕ` combined with the same `<<<`/`|||`/`&&&`
  operators the source uses;
* decoded physical values are real numbers (`ℝ`); Python float division
  and multiplication are exact field operations on `ℝ`;
* `ctypes.c_int16` / `c_int32` / `c_uint16` reinterpretation is modelled
  by explicit two's-complement functions on `ℕ`/`ℤ`.
-/

namespace vicpack

/-- `PACKET_MEAS`: index of the measurement-count byte. -/
def PACKET_MEAS : ℕ := 4
/-- `PACKET_INDEX`: index of the packet-id byte. -/
def PACKET_INDEX : ℕ := 2
/-- `PACKET_REQUESTID`: index of the request-id byte. -/
def PACKET_REQUESTID : ℕ := 3
/-- `PACKET_OFFSET`: stride between successive measurements. -/
def PACKET_OFFSET : ℕ := 5
/-- `PACKET_HEADER`: offset from start of packet to the first measurement. -/
def PACKET_HEADER : ℕ := 5
/-- `DRIVER_TYPE`: the driver-info measurement type code. -/
def DRIVER_TYPE : ℕ := 1
/-- `DEFAULT_SLOT`: slot number used for the synthetic slot. -/
def DEFAULT_SLOT : ℤ := -1
/-- `DEFAULT_SENSOR_TYPE`: sensor type used for the synthetic slot. -/
def DEFAULT_SENSOR_TYPE : String := "UNKNOWN"

/-- Errors surfaced by the decoder: a Python `IndexError` on the packet
byte list (`OutOfRange` in the spec's taxonomy) or on the sensor-name
table (`UnknownSensorIndex`). -/
inductive VicErr where
  | outOfRange
  | unknownSensorIndex
deriving DecidableEq

/-- `vicpack.__get_meas`: read measurement `num` from the payload.
The type byte sits at `PACKET_OFFSET * num + PACKET_HEADER` and the four
following bytes are OR-combined big-endian exactly as the source loop
`for i in range(3, -1, -1): data |= pck[data_off + (3 - i)] << (i * 8)`
does.  Any out-of-bounds byte access raises `IndexError` in the source;
here every required byte is demanded up front, which is observationally
the same error. -/
def get_meas (pck : List ℕ) (num : ℕ) : Except VicErr (ℕ × ℕ) :=
  let type_off := PACKET_OFFSET * num + PACKET_HEADER
  let data_off := type_off + 1
  match pck.get? type_off, pck.get? data_off, pck.get? (data_off + 1),
        pck.get? (data_off + 2), pck.get? (data_off + 3) with
  | some t, some b3, some b2, some b1, some b0 =>
      .ok (t, 0 ||| b3 <<< (3 * 8) ||| b2 <<< (2 * 8) ||| b1 <<< (1 * 8) ||| b0 <<< (0 * 8))
  | _, _, _, _, _ => .error .outOfRange


/-! ## ctypes reinterpretation helpers -/

/-- `ctypes.c_uint16(m).value`: the low 16 bits of `m`. -/
def c_uint16 (m : ℕ) : ℕ := m % 2 ^ 16

/-- `ctypes.c_int16(m).value`: the low 16 bits of `m` reinterpreted as a
signed two's-complement 16-bit integer. -/
def c_int16 (m : ℕ) : ℤ :=
  if m % 2 ^ 16 < 2 ^ 15 then ((m % 2 ^ 16 : ℕ) : ℤ) else ((m % 2 ^ 16 : ℕ) : ℤ) - 2 ^ 16

/-- `ctypes.c_int32(m).value`: the low 32 bits of `m` reinterpreted as a
signed two's-complement 32-bit integer. -/
def c_int32 (m : ℕ) : ℤ :=
  if m % 2 ^ 32 < 2 ^ 31 then ((m % 2 ^ 32 : ℕ) : ℤ) else ((m % 2 ^ 32 : ℕ) : ℤ) - 2 ^ 32

/-- The byte swap of the low 16 bits,
`((measurement >> 8) & 255) | ((measurement & 255) << 8)`, written inline
at the top of every byte-swap-based decode function in the source. -/
def swap16 (m : ℕ) : ℕ := ((m >>> 8) &&& 255) ||| ((m &&& 255) <<< 8)

/-! ## Decode functions (`vicpack.__get_*`)

Each one turns the raw 32-bit measurement value into a list of physical
values, exactly as its Python counterpart. -/

/-- `__get_default` -/
noncomputable def get_default (m : ℕ) : List ℝ := [(m : ℝ)]

/-- `__get_driver_info`, as the 4-tuple the exporter destructures into
`(self.slot, self.driver, self.index, self.enabled)`. -/
structure DriverInfo where
  slot : ℕ
  driver : ℕ
  index : ℕ
  enabled : Bool
deriving DecidableEq

/-- `__get_driver_info`: `driver = m >> 24`, `slot = (m & 0x00FF0000) >> 16`,
`index = (m & 0x0000FF00) >> 8`, `enabled = (m & 0x000000FF) != 0`. -/
def get_driver_info (m : ℕ) : DriverInfo :=
  { slot := (m &&& 0x00FF0000) >>> 16
    driver := m >>> 24
    index := (m &&& 0x0000FF00) >>> 8
    enabled := (m &&& 0x000000FF) ≠ 0 }

/-- `__get_driver_info` seen through the registry as a numeric list
(the Python function returns `[slot, driver, index, enabled]` with a
trailing bool; the bool is encoded here as 0/1).  The exporter never
routes driver-info measurements through `__get_json`, so this encoding is
unobservable there. -/
noncomputable def get_driver_info_vals (m : ℕ) : List ℝ :=
  [((get_driver_info m).slot : ℝ), ((get_driver_info m).driver : ℝ),
   ((get_driver_info m).index : ℝ), if (get_driver_info m).enabled then 1 else 0]

/-- `__get_ondie_voltage`: volts = m / 1000.0 -/
noncomputable def get_ondie_voltage (m : ℕ) : List ℝ := [(m : ℝ) / 1000]

/-- `__get_battery_voltage`: volts = m / 1000000.0 -/
noncomputable def get_battery_voltage (m : ℕ) : List ℝ := [(m : ℝ) / 1000000]

/-- `__get_ondie_temperature`: °C = c_int16(m) / 100.0 -/
noncomputable def get_ondie_temperature (m : ℕ) : List ℝ := [(c_int16 m : ℝ) / 100]

/-- `__get_distance` -/
noncomputable def get_distance (m : ℕ) : List ℝ := [(m : ℝ)]

/-- `__get_external_temperature`: °C = m * 175.72/65536 - 46.85 -/
noncomputable def get_external_temperature (m : ℕ) : List ℝ := [(m : ℝ) * 175.72 / 65536 - 46.85]

/-- `__get_external_humidity`: %RH = m * 125/65536.0 - 6 -/
noncomputable def get_external_humidity (m : ℕ) : List ℝ := [(m : ℝ) * 125 / 65536 - 6]

/-- `__get_switch_value`: pin = m >> 8, value = m & 255 -/
noncomputable def get_switch_value (m : ℕ) : List ℝ := [((m >>> 8 : ℕ) : ℝ), ((m &&& 255 : ℕ) : ℝ)]

/-- `__get_gpio_value` -/
noncomputable def get_gpio_value (m : ℕ) : List ℝ := [(m : ℝ)]

/-- `__get_acceleration`: g = (c_int16(m) >> 6) * 0.0039.
Python `>>` on a negative int is an arithmetic (floor) shift, i.e.
floor division by `2^6`. -/
noncomputable def get_acceleration (m : ℕ) : List ℝ := [(Int.fdiv (c_int16 m) (2 ^ 6) : ℝ) * 0.0039]

/-- `__get_charge`: c_uint16 reinterpretation (the source also prints the
raw value to stdout; output side effects are not modelled). -/
noncomputable def get_charge (m : ℕ) : List ℝ := [(c_uint16 m : ℝ)]

/-- `__get_ext_current`: amps = m * 0.0000322911 -/
noncomputable def get_ext_current (m : ℕ) : List ℝ := [(m : ℝ) * 0.0000322911]

/-- `__get_ext_voltage`: volts = m * 0.0484438 -/
noncomputable def get_ext_voltage (m : ℕ) : List ℝ := [(m : ℝ) * 0.0484438]

/-- `__get_ambient_light`: byte-swap, exponent = swapped >> 12,
mantissa = swapped & 4095, lux = 0.01 * 2^exp * man. -/
noncomputable def get_ambient_light (m : ℕ) : List ℝ :=
  let s := swap16 m
  [(0.01 : ℝ) * (2 : ℝ) ^ (s >>> 12) * ((s &&& 4095 : ℕ) : ℝ)]

/-- `__get_error_code`: c_int32(m) * (-1) -/
noncomputable def get_error_code (m : ℕ) : List ℝ := [((c_int32 m : ℝ) * (-1))]

/-- `__get_sw_version`: major/minor/patch bytes. -/
noncomputable def get_sw_version (m : ℕ) : List ℝ :=
  [(((m >>> 16) &&& 0xFF : ℕ) : ℝ), (((m >>> 8) &&& 0xFF : ℕ) : ℝ), (((m >>> 0) &&& 0xFF : ℕ) : ℝ)]

/-- `__get_voc_iaq`: byte-swap, state = (s >> 14) & 3, index = s & 0x3FFF,
returned as `[iaq_index, iaq_state]`. -/
noncomputable def get_voc_iaq (m : ℕ) : List ℝ :=
  let s := swap16 m
  [((s &&& 0x3FFF : ℕ) : ℝ), (((s >>> 14) &&& 3 : ℕ) : ℝ)]

/-- `__get_voc_temperature`: byte-swap, °C = (s & 0xFFFF) / 10.0 -/
noncomputable def get_voc_temperature (m : ℕ) : List ℝ :=
  let s := swap16 m
  [((s &&& 0xFFFF : ℕ) : ℝ) / 10]

/-- `__get_voc_humidity`: byte-swap; the source computes
`humidity = measurement & 0xFFFF` and then overwrites it with
`measurement / 100.0`, so the *pre-mask* swapped value is divided and the
masked value is discarded.  The discarded mask is kept here as `_humidity`. -/
noncomputable def get_voc_humidity (m : ℕ) : List ℝ :=
  let s := swap16 m
  let _humidity := s &&& 0xFFFF
  [(s : ℝ) / 100]

/-- `__get_voc_pressure`: byte-swap, pressure = (s & 0xFFFF) * 10.0 -/
noncomputable def get_voc_pressure (m : ℕ) : List ℝ :=
  let s := swap16 m
  [((s &&& 0xFFFF : ℕ) : ℝ) * 10]

/-- `__get_voc_ambient_light`: same computation as `__get_ambient_light`. -/
noncomputable def get_voc_ambient_light (m : ℕ) : List ℝ :=
  let s := swap16 m
  [(0.01 : ℝ) * (2 : ℝ) ^ (s >>> 12) * ((s &&& 4095 : ℕ) : ℝ)]

/-- `__get_voc_sound_level`: byte-swap, then
`vmic = -((2^(-17) * 1000 * 3.0 * (2^16 - 2*s)) / 82000)`;
`math.log10` raises exactly when its argument is `≤ 0`, and the bare
`except` then substitutes 0, so the decode is a conditional on
`vmic / vref ≤ 0`. -/
noncomputable def get_voc_sound_level (m : ℕ) : List ℝ :=
  let s := swap16 m
  let rf : ℝ := 82000
  let rs : ℝ := 1000
  let vref : ℝ := 11.23
  let vmic : ℝ := -((2 ^ (-17 : ℤ) * rs * 3.0 * ((2 : ℝ) ^ (16 : ℕ) - 2 * (s : ℝ))) / rf)
  if vmic / vref ≤ 0 then [0] else [20 * Real.logb 10 (vmic / vref) + (-42) + 94]

/-- `__get_tof_distance`: byte-swap, state = (s >> 13) & 7,
distance = s & 0x1FFF, returned as `[tof_distance, tof_state]`. -/
noncomputable def get_tof_distance (m : ℕ) : List ℝ :=
  let s := swap16 m
  [((s &&& 0x1FFF : ℕ) : ℝ), (((s >>> 13) &&& 7 : ℕ) : ℝ)]

/-- `__get_terminal_voltage`: byte-swap, volts = s * (3.0 / 2^16) -/
noncomputable def get_terminal_voltage (m : ℕ) : List ℝ :=
  let s := swap16 m
  [(s : ℝ) * (3.0 / 2 ^ 16)]

/-- `__get_terminal_voltage_diff`: byte-swap, volts = s * (3.0 / 2^15) -/
noncomputable def get_terminal_voltage_diff (m : ℕ) : List ℝ :=
  let s := swap16 m
  [(s : ℝ) * (3.0 / 2 ^ 15)]

/-! ## SI scaler (`vicpack.__get_si`) -/

/-- `incPrefixes`: increasing-magnitude SI prefixes. -/
def incPrefixes : List String := ["k", "M", "G", "T", "P", "E", "Z", "Y"]

/-- `decPrefixes`: decreasing-magnitude SI prefixes. -/
def decPrefixes : List String := ["m", "u", "n", "p", "f", "a", "z", "y"]

/-- `__get_si`: engineering-notation scaling.  The source computes
`degree = int(math.floor(math.log10(math.fabs(num)) / 3))`, which is the
floor of the base-1000 logarithm of `|num|`; here that is the exact
`Int.log 1000 |num|` on `ℚ`.  The sign test `degree/fabs(degree) == ±1`
becomes `0 < degree` / `degree < 0`, and the source's in-place clamping of
`degree` to `±len(prefixes)` before `scaled = num * 1000**(-degree)` is
inlined into each branch's scale expression. -/
def get_si (val : List ℚ) : ℚ × String :=
  let num := val.headD 0
  let degree : ℤ := if num ≠ 0 then Int.log 1000 |num| else 0
  if degree = 0 then (num, "")
  else if 0 < degree then
    if degree - 1 < (incPrefixes.length : ℤ) then
      (num * (1000 : ℚ) ^ (-degree), incPrefixes.getD (degree - 1).toNat "")
    else
      (num * (1000 : ℚ) ^ (-(incPrefixes.length : ℤ)), incPrefixes.getD (incPrefixes.length - 1) "")
  else
    if -degree - 1 < (decPrefixes.length : ℤ) then
      (num * (1000 : ℚ) ^ (-degree), decPrefixes.getD (-degree - 1).toNat "")
    else
      (num * (1000 : ℚ) ^ ((decPrefixes.length : ℤ)), decPrefixes.getD (decPrefixes.length - 1) "")


/-! ## Type registry and `__get_json` -/

/-- The value slot of a decoded-measurement record.  `__get_json` starts
from the template `{'key': 'n/a', 'value': '0', 'unit': 'n/a'}`, whose
`value` is the *string* `'0'`; on a registry match it is replaced by the
numeric list the decode function returns. -/
inductive JVal where
  | jstr : String → JVal
  | jnums : List ℝ → JVal

/-- The unit slot: the template holds the *string* `'n/a'`; on a match it
is replaced by a list of unit labels. -/
inductive JUnit where
  | ustr : String → JUnit
  | ulist : List String → JUnit

/-- One decoded measurement as produced by `__get_json`. -/
structure DecodedMeasurement where
  key : String
  value : JVal
  unit : JUnit

/-- One entry of `self.types`: measurement name, type code, SI flag, unit
label(s) as written in the source (a bare string or a list), and the
decode function.  The display templates (`fmt`) are only consumed by the
text renderer and are not modelled. -/
structure TypeDesc where
  name : String
  type : ℕ
  si : Bool
  units : JUnit
  func : ℕ → List ℝ

/-- `self.types`: the measurement-type registry, in source order. -/
noncomputable def types : List TypeDesc :=
  [⟨"no_measurement", 0, false, .ustr "", get_default⟩,
   ⟨"driver_info", 1, false, .ustr "", get_driver_info_vals⟩,
   ⟨"sampling_time", 2, false, .ustr "sec", get_default⟩,
   ⟨"sampling_time_lsb", 3, false, .ustr "", get_default⟩,
   ⟨"sampling_time_offset", 4, false, .ustr "usec", get_default⟩,
   ⟨"internal_battery_on_die", 7, true, .ustr "V", get_ondie_voltage⟩,
   ⟨"internal_battery", 8, true, .ustr "V", get_battery_voltage⟩,
   ⟨"internal_temperature", 11, true, .ustr "C", get_ondie_temperature⟩,
   ⟨"voltage_real_part", 13, true, .ustr "V", get_ext_voltage⟩,
   ⟨"voltage_imag_part", 14, true, .ustr "V", get_default⟩,
   ⟨"current_real_part", 15, true, .ustr "A", get_ext_current⟩,
   ⟨"current_imag_part", 16, true, .ustr "A", get_default⟩,
   ⟨"charge", 19, true, .ustr "C", get_charge⟩,
   ⟨"temperature", 20, false, .ustr "C", get_external_temperature⟩,
   ⟨"humidity", 21, false, .ustr "RH", get_external_humidity⟩,
   ⟨"pressure", 22, false, .ustr "bar", get_default⟩,
   ⟨"acceleration_x", 23, true, .ustr "g", get_acceleration⟩,
   ⟨"acceleration_y", 24, true, .ustr "g", get_acceleration⟩,
   ⟨"acceleration_z", 25, true, .ustr "g", get_acceleration⟩,
   ⟨"switch_interrupt", 26, false, .ulist ["pin", "value"], get_switch_value⟩,
   ⟨"audio_average", 27, false, .ustr "count", get_default⟩,
   ⟨"audio_max", 28, false, .ustr "count", get_default⟩,
   ⟨"audio_spl", 29, false, .ustr "dB", get_default⟩,
   ⟨"ambient_light_visible", 30, false, .ustr "lux", get_ambient_light⟩,
   ⟨"ambient_light_ir", 31, false, .ustr "lux", get_default⟩,
   ⟨"ambient_light_uv", 32, false, .ustr "", get_default⟩,
   ⟨"co2_level", 33, false, .ustr "g", get_default⟩,
   ⟨"distance", 34, false, .ustr "mm", get_distance⟩,
   ⟨"sample_rate", 35, false, .ustr "msec", get_default⟩,
   ⟨"magnetometer", 40, false, .ustr "", get_default⟩,
   ⟨"fft_data", 41, false, .ustr "", get_default⟩,
   ⟨"gpio_value", 42, false, .ustr "", get_gpio_value⟩,
   ⟨"voc_iaq", 43, false, .ulist ["index", "state"], get_voc_iaq⟩,
   ⟨"voc_temperature", 44, false, .ustr "C", get_voc_temperature⟩,
   ⟨"voc_humidity", 45, false, .ustr "RH%", get_voc_humidity⟩,
   ⟨"voc_pressure", 46, false, .ustr "pA", get_voc_pressure⟩,
   ⟨"voc_ambient_light", 47, false, .ustr "lux", get_voc_ambient_light⟩,
   ⟨"voc_sound_level", 48, false, .ustr "dbSpl", get_voc_sound_level⟩,
   ⟨"tof_distance", 49, false, .ulist ["mm", "state"], get_tof_distance⟩,
   ⟨"accelerometer_status", 50, false, .ustr "state", get_default⟩,
   ⟨"gps", 51, false, .ustr "state", get_default⟩,
   ⟨"voltage", 52, false, .ustr "V", get_terminal_voltage⟩,
   ⟨"voltage_diff", 53, false, .ustr "V", get_terminal_voltage_diff⟩,
   ⟨"voltage_ref", 54, false, .ustr "V", get_terminal_voltage⟩,
   ⟨"advertisement", 100, false, .ustr "", get_default⟩,
   ⟨"stream_start", 121, false, .ustr "", get_default⟩,
   ⟨"stream_stop", 122, false, .ustr "", get_default⟩,
   ⟨"value_raw", 123, false, .ustr "", get_default⟩,
   ⟨"app_sw_ver", 124, false, .ustr "", get_sw_version⟩,
   ⟨"driver_resp", 125, false, .ustr "", get_default⟩,
   ⟨"packet_ack", 126, false, .ustr "", get_default⟩,
   ⟨"error_code", 127, false, .ustr "", get_error_code⟩,
   ⟨"crc_code", 128, false, .ustr "", get_default⟩,
   ⟨"shutdown", 129, false, .ustr "", get_default⟩,
   ⟨"variable_length", 130, false, .ustr "", get_default⟩,
   ⟨"device_id", 131, false, .ustr "", get_default⟩,
   ⟨"device_pin", 132, false, .ustr "", get_default⟩,
   ⟨"rssi_level", 133, false, .ustr "", get_default⟩,
   ⟨"cell_id", 134, false, .ustr "", get_default⟩,
   ⟨"config_ver", 135, false, .ustr "", get_default⟩]

/-- `vicpack.__get_json`: build a measurement record.  The source scans
every `(k, v)` of `self.types` in insertion order and overwrites the
`raw` template on every entry whose `'type'` matches `typ` (type codes
are unique, so at most one entry matches); a scalar unit label is wrapped
into a one-element list on a match. -/
noncomputable def get_json (tbl : List TypeDesc) (typ : ℕ) (data : ℕ) : DecodedMeasurement :=
  tbl.foldl
    (fun raw d =>
      if d.type = typ then
        { key := d.name
          value := .jnums (d.func data)
          unit := match d.units with
                  | .ustr s => .ulist [s]
                  | .ulist l => .ulist l }
      else raw)
    ⟨"n/a", .jstr "0", .ustr "n/a"⟩


/-! ## Slot aggregator / exporter (`vicpack.export`) -/

/-- `self.sensors`: the sensor-name table indexed by the driver id. -/
def sensors : List String :=
  ["SENSOR_NO_SENSOR", "SENSOR_SI7050_TEMP", "SENSOR_SI7020_HUMIDITY", "SENSOR_SWITCH",
   "SENSOR_INTERNAL_ADC", "SENSOR_LTC1864L_ADC", "SENSOR_420MA_LOOP", "SENSOR_UART",
   "SENSOR_ACCELEROMETER", "SENSOR_DIGITAL_MIC", "SENSOR_AMBIENT_LIGHT", "SENSOR_CO2_MODULE",
   "SENSOR_CUSTOM_1", "SENSOR_CUSTOM_2", "SENSOR_CUSTOM_3", "SENSOR_CUSTOM_4",
   "SENSOR_DEBUG", "SENSOR_ENVIRONMENTAL", "SENSOR_GPS", "SENSOR_TERMINAL",
   "SENSOR_TOF", "SENSOR_PIR", "SENSOR_CAPA", "SENSOR_SONAR"]

/-- One sensor-slot record of the export structure.  The exported dict
carries exactly the keys of the `_sensor` template: `slot`, `sensorType`,
`index` and `measurements`. -/
structure SensorSlot where
  slot : ℤ
  sensorType : String
  index : ℕ
  measurements : List DecodedMeasurement

/-- The `_sensor` template: `slot = DEFAULT_SLOT`,
`sensorType = DEFAULT_SENSOR_TYPE`, `index = 0`, no measurements. -/
def defaultSensor : SensorSlot := ⟨DEFAULT_SLOT, DEFAULT_SENSOR_TYPE, 0, []⟩

/-- The export structure: sensor slots, the (always empty) `time` dict,
and the packet/request ids. -/
structure Export where
  sensors : List SensorSlot
  time : List (String × String)
  packetId : ℕ
  requestId : ℕ

/-- The instance state of the `vicpack` class: the packet-related fields
set by `add` plus the driver-state fields `slot`/`driver`/`index`/`enabled`
mutated by `export`.  Configuration fields (`detail`, `prefix`, `fullmac`,
`timefmt`) only affect the text renderer and are not modelled. -/
structure State where
  id : ℕ
  requestId : ℕ
  meas : ℕ
  size : ℕ
  pck : List ℕ
  slot : ℕ
  driver : ℕ
  index : ℕ
  enabled : Bool
deriving DecidableEq

/-- `vicpack.add`, starting from the already-parsed byte list (the hex
pair decoding itself is not needed by any claim): stores the payload and
extracts `id = pck[2]`, `requestId = pck[3]`, `meas = pck[4]`,
`size = len(pck)`.  Indexing bytes 2–4 of a shorter list raises in
Python, hence the length guard.  On a fresh instance the driver-state
fields are zero/false from `__init__`. -/
def add (pck : List ℕ) : Option State :=
  if 5 ≤ pck.length then
    some { id := pck.getD PACKET_INDEX 0
           requestId := pck.getD PACKET_REQUESTID 0
           meas := pck.getD PACKET_MEAS 0
           size := pck.length
           pck := pck
           slot := 0, driver := 0, index := 0, enabled := false }
  else none

/-- The loop state of `export`: the open slot `val`, the `new` flag, the
accumulated `export['sensors']` list, and the instance driver-state
fields written by the driver-info branch. -/
structure ExpSt where
  val : SensorSlot
  new : Bool
  sensors : List SensorSlot
  ds : DriverInfo

/-- One iteration of the `export` while loop at measurement index `m`:
* driver-info measurement: append the open slot to the accumulator if
  `new` is set, then start a new slot from the driver info (its
  `sensorType` is `self.sensors[driver]`, raising `UnknownSensorIndex`
  when `driver` is past the table) and set the instance driver state;
* any other measurement: append `__get_json`'s record to the open slot's
  measurement list. -/
noncomputable def exportStep (pck : List ℕ) (st : ExpSt) (m : ℕ) : Except VicErr ExpSt :=
  match get_meas pck m with
  | .error e => .error e
  | .ok (typ, data) =>
    if typ = DRIVER_TYPE then
      let sensors' := if st.new then st.sensors ++ [st.val] else st.sensors
      let di := get_driver_info data
      match sensors.get? di.driver with
      | none => .error .unknownSensorIndex
      | some s => .ok ⟨⟨(di.slot : ℤ), s, di.index, []⟩, true, sensors', di⟩
    else
      .ok ⟨⟨st.val.slot, st.val.sensorType, st.val.index,
            st.val.measurements ++ [get_json types typ data]⟩, st.new, st.sensors, st.ds⟩

/-- The `export` while loop over a list of measurement indices. -/
noncomputable def exportGo (pck : List ℕ) : List ℕ → ExpSt → Except VicErr ExpSt
  | [], st => .ok st
  | m :: rest, st =>
    match exportStep pck st m with
    | .error e => .error e
    | .ok st' => exportGo pck rest st'

/-- `vicpack.export`.  The source's while loop starts at `meas = 0` and
continues while `meas + 1 ≤ self.meas - 1`, so it processes measurement
indices `0, 1, …, max 1 self.meas - 1` (the body always runs at least
once, even when the packet declares zero measurements) and appends the
final open slot after the last index.  The pre-loop `__get_meas(0)` call
is kept for its possible `OutOfRange` failure; its `typ != DRIVER_TYPE`
check decides whether the `_sensor` template is copied into `val` before
the loop, and when the first measurement *is* driver-info the Python
variable `val` stays undefined but is assigned in the first iteration
before any read, so unconditionally starting from the template is
equivalent.  Returns the export structure together with the mutated
instance state. -/
noncomputable def «export» (v : State) : Except VicErr (Export × State) :=
  match get_meas v.pck 0 with
  | .error e => .error e
  | .ok _ =>
    match exportGo v.pck (List.range (max 1 v.meas))
        ⟨defaultSensor, false, [], ⟨v.slot, v.driver, v.index, v.enabled⟩⟩ with
    | .error e => .error e
    | .ok st =>
      .ok (⟨st.sensors ++ [st.val], [], v.id, v.requestId⟩,
           { v with slot := st.ds.slot, driver := st.ds.driver,
                    index := st.ds.index, enabled := st.ds.enabled })

/-! ## Helper lemmas -/

lemma get?_some_of_lt {l : List ℕ} {i : ℕ} (h : i < l.length) :
    l.get? i = some (l.getD i 0) := by
  rw [List.getD_eq_getElem?_getD]
  cases hq : l[i]? with
  | none => rw [List.getElem?_eq_none_iff] at hq; omega
  | some b => simp [List.get?_eq_getElem?, hq]

/-- Helper: in-range reads succeed and return the big-endian combination. -/
lemma get_meas_ok_eq {pck : List ℕ} {i : ℕ}
    (h : PACKET_OFFSET * i + PACKET_HEADER + 4 < pck.length) :
    get_meas pck i =
      .ok (pck.getD (PACKET_OFFSET * i + PACKET_HEADER) 0,
        (pck.getD (PACKET_OFFSET * i + PACKET_HEADER + 1) 0) <<< 24 |||
        (pck.getD (PACKET_OFFSET * i + PACKET_HEADER + 2) 0) <<< 16 |||
        (pck.getD (PACKET_OFFSET * i + PACKET_HEADER + 3) 0) <<< 8 |||
        (pck.getD (PACKET_OFFSET * i + PACKET_HEADER + 4) 0)) := by
  have h0 := get?_some_of_lt (l := pck) (i := PACKET_OFFSET * i + PACKET_HEADER) (by omega)
  have h1 := get?_some_of_lt (l := pck) (i := PACKET_OFFSET * i + PACKET_HEADER + 1) (by omega)
  have h2 := get?_some_of_lt (l := pck) (i := PACKET_OFFSET * i + PACKET_HEADER + 2) (by omega)
  have h3 := get?_some_of_lt (l := pck) (i := PACKET_OFFSET * i + PACKET_HEADER + 3) (by omega)
  have h4 := get?_some_of_lt (l := pck) (i := PACKET_OFFSET * i + PACKET_HEADER + 4) (by omega)
  simp only [get_meas]
  rw [show PACKET_OFFSET * i + PACKET_HEADER + 1 + 1 = PACKET_OFFSET * i + PACKET_HEADER + 2 by omega,
      show PACKET_OFFSET * i + PACKET_HEADER + 1 + 2 = PACKET_OFFSET * i + PACKET_HEADER + 3 by omega,
      show PACKET_OFFSET * i + PACKET_HEADER + 1 + 3 = PACKET_OFFSET * i + PACKET_HEADER + 4 by omega,
      h0, h1, h2, h3, h4]
  simp [Nat.zero_or, Nat.shiftLeft_zero]

/-- Helper: reads past the end of the byte list fail with `OutOfRange`. -/
lemma get_meas_err_eq {pck : List ℕ} {i : ℕ}
    (h : pck.length ≤ PACKET_OFFSET * i + PACKET_HEADER + 4) :
    get_meas pck i = .error .outOfRange := by
  have h4 : pck.get? (PACKET_OFFSET * i + PACKET_HEADER + 1 + 3) = none := by
    rw [List.get?_eq_getElem?, List.getElem?_eq_none_iff]
    omega
  simp only [get_meas]
  split
  · next t b3 b2 b1 b0 heq =>
      rw [h4] at heq
      exact absurd heq (by simp)
  · rfl

/-- The byte swap is below `2^16` for every input. -/
lemma swap16_lt (m : ℕ) : swap16 m < 2 ^ 16 := by
  have h1 : (m >>> 8) &&& 255 < 2 ^ 16 :=
    lt_of_le_of_lt Nat.and_le_right (by norm_num)
  have h2 : (m &&& 255) <<< 8 < 2 ^ 16 := by
    rw [Nat.shiftLeft_eq]
    have : m &&& 255 ≤ 255 := Nat.and_le_right
    calc (m &&& 255) * 2 ^ 8 ≤ 255 * 2 ^ 8 := Nat.mul_le_mul_right _ this
    _ < 2 ^ 16 := by norm_num
  exact Nat.or_lt_two_pow h1 h2

lemma and255_eq_mod (x : ℕ) : x &&& 255 = x % 2 ^ 8 := by
  have := Nat.and_pow_two_sub_one_eq_mod x 8
  norm_num at this ⊢
  exact this

/-- The byte swap only depends on the low 16 bits of its input. -/
lemma swap16_congr {a b : ℕ} (h : a % 2 ^ 16 = b % 2 ^ 16) : swap16 a = swap16 b := by
  unfold swap16
  have h1 : (a >>> 8) &&& 255 = (b >>> 8) &&& 255 := by
    rw [and255_eq_mod, and255_eq_mod, Nat.shiftRight_eq_div_pow, Nat.shiftRight_eq_div_pow]
    norm_num at h ⊢
    omega
  have h2 : a &&& 255 = b &&& 255 := by
    rw [and255_eq_mod, and255_eq_mod]
    norm_num at h ⊢
    omega
  rw [h1, h2]

/-- A registry scan over entries that never match leaves the template
unchanged. -/
lemma get_json_no_match {tbl : List TypeDesc} {typ : ℕ}
    (h : ∀ d ∈ tbl, d.type ≠ typ) (data : ℕ) :
    get_json tbl typ data = ⟨"n/a", .jstr "0", .ustr "n/a"⟩ := by
  induction tbl with
  | nil => rfl
  | cons d rest ih =>
      have hd : d.type ≠ typ := h d (by simp)
      have hrest : ∀ d' ∈ rest, d'.type ≠ typ := fun d' hmem => h d' (by simp [hmem])
      simp only [get_json, List.foldl_cons, if_neg hd]
      exact ih hrest

end vicpack

/-- **C3** — Reading measurement number `index` from a loaded packet fails
with `OutOfRange` if and only if `STRIDE*index + HEADER_LEN + 4 ≥ len(bytes)`
(`STRIDE = HEADER_LEN = 5`); for every index with
`STRIDE*index + HEADER_LEN + 4 < len(bytes)` the read succeeds and returns a
`(typeCode, value)` pair. -/
theorem claim_C3_out_of_range_iff (pck : List ℕ) (i : ℕ) :
    (vicpack.get_meas pck i = .error .outOfRange ↔
      vicpack.PACKET_OFFSET * i + vicpack.PACKET_HEADER + 4 ≥ pck.length) ∧
    (vicpack.PACKET_OFFSET * i + vicpack.PACKET_HEADER + 4 < pck.length →
      ∃ t v, vicpack.get_meas pck i = .ok (t, v)) := by
  constructor
  · constructor
    · intro herr
      by_contra hlt
      rw [vicpack.get_meas_ok_eq (by omega)] at herr
      exact absurd herr (by simp)
    · intro hle
      exact vicpack.get_meas_err_eq hle
  · intro hlt
    exact ⟨_, _, vicpack.get_meas_ok_eq hlt⟩

/-- Witness for C3: on the 15-byte packet below, measurement 0 is readable
(`5*0+5+4 = 9 < 15`) while measurement 2 is out of range (`5*2+5+4 = 19 ≥ 15`). -/
theorem claim_C3_out_of_range_iff_witness :
    (∃ t v, vicpack.get_meas [250, 1, 9, 7, 2, 2, 0, 0, 0, 42, 1, 1, 3, 0, 1] 0 = .ok (t, v)) ∧
    vicpack.get_meas [250, 1, 9, 7, 2, 2, 0, 0, 0, 42, 1, 1, 3, 0, 1] 2 = .error .outOfRange :=
  ⟨(claim_C3_out_of_range_iff _ 0).2 (by decide),
   (claim_C3_out_of_range_iff _ 2).1.mpr (by decide)⟩

/-- **C4** — For every loaded packet and every in-range measurement index,
the type byte is read at offset `STRIDE*index + HEADER_LEN` and the following
4 bytes are combined big-endian into the unsigned 32-bit value
`byte[offset+1]<<24 | byte[offset+2]<<16 | byte[offset+3]<<8 | byte[offset+4]`. -/
theorem claim_C4_big_endian_value (pck : List ℕ) (i : ℕ)
    (h : vicpack.PACKET_OFFSET * i + vicpack.PACKET_HEADER + 4 < pck.length) :
    vicpack.get_meas pck i =
      .ok (pck.getD (vicpack.PACKET_OFFSET * i + vicpack.PACKET_HEADER) 0,
        (pck.getD (vicpack.PACKET_OFFSET * i + vicpack.PACKET_HEADER + 1) 0) <<< 24 |||
        (pck.getD (vicpack.PACKET_OFFSET * i + vicpack.PACKET_HEADER + 2) 0) <<< 16 |||
        (pck.getD (vicpack.PACKET_OFFSET * i + vicpack.PACKET_HEADER + 3) 0) <<< 8 |||
        (pck.getD (vicpack.PACKET_OFFSET * i + vicpack.PACKET_HEADER + 4) 0)) :=
  vicpack.get_meas_ok_eq h

/-- Witness for C4: measurement 1 of the packet below sits at offset 10
with value bytes `[0x12, 0x34, 0x56, 0x78]`, i.e. value `0x12345678`. -/
theorem claim_C4_big_endian_value_witness :
    vicpack.PACKET_OFFSET * 1 + vicpack.PACKET_HEADER + 4 <
      ([250, 1, 9, 7, 2, 2, 0, 0, 0, 42, 20, 0x12, 0x34, 0x56, 0x78] : List ℕ).length ∧
    vicpack.get_meas [250, 1, 9, 7, 2, 2, 0, 0, 0, 42, 20, 0x12, 0x34, 0x56, 0x78] 1 =
      .ok (20, 0x12 <<< 24 ||| 0x34 <<< 16 ||| 0x56 <<< 8 ||| 0x78) :=
  ⟨by decide, claim_C4_big_endian_value _ 1 (by decide)⟩

/-- **C5** — For every 32-bit raw value, the voc_humidity (typeCode 45)
decode returns `[swapped / 100.0]` where
`swapped = ((value>>8)&0xFF) | ((value&0xFF)<<8)`: it divides the pre-mask
swapped value rather than the value masked with `0xFFFF`, and since the
swapped value is always below `2^16` the masked and pre-mask values
coincide for every input. -/
theorem claim_C5_voc_humidity_premask (v : ℕ) :
    vicpack.get_voc_humidity v = [((vicpack.swap16 v : ℕ) : ℝ) / 100] ∧
    vicpack.swap16 v < 2 ^ 16 ∧
    vicpack.swap16 v &&& 0xFFFF = vicpack.swap16 v := by
  refine ⟨rfl, vicpack.swap16_lt v, ?_⟩
  have h := Nat.and_pow_two_sub_one_eq_mod (vicpack.swap16 v) 16
  have hlt := vicpack.swap16_lt v
  norm_num at h hlt
  rw [h]
  exact Nat.mod_eq_of_lt hlt

/-- **C9** — For every 32-bit raw value, the internal_temperature
(typeCode 11) decode reinterprets the low 16 bits as a signed
two's-complement 16-bit integer and returns that value divided by 100.0;
in particular the input `0xFFFFFF38` yields the negative Celsius value
`-2.0` (two's-complement of `0xFF38` is `-200`, divided by 100). -/
theorem claim_C9_signed_temperature (v : ℕ) :
    vicpack.get_ondie_temperature v = [(vicpack.c_int16 v : ℝ) / 100] ∧
    (v % 2 ^ 16 < 2 ^ 15 →
      vicpack.get_ondie_temperature v = [((v % 2 ^ 16 : ℕ) : ℝ) / 100]) ∧
    (2 ^ 15 ≤ v % 2 ^ 16 →
      vicpack.get_ondie_temperature v = [(((v % 2 ^ 16 : ℕ) : ℝ) - 2 ^ 16) / 100]) ∧
    vicpack.c_int16 0xFFFFFF38 = -200 ∧
    vicpack.get_ondie_temperature 0xFFFFFF38 = [(-2 : ℝ)] := by
  have h38 : vicpack.c_int16 0xFFFFFF38 = -200 := by decide
  refine ⟨rfl, ?_, ?_, h38, ?_⟩
  · intro h
    simp only [vicpack.get_ondie_temperature, vicpack.c_int16]
    rw [if_pos h]
    norm_num [Int.cast_natCast]
    rw [show ((v : ℤ) % 65536) = ((v % 65536 : ℕ) : ℤ) from (Int.natCast_mod v 65536).symm,
       Int.cast_natCast]
  · intro h
    simp only [vicpack.get_ondie_temperature, vicpack.c_int16]
    rw [if_neg (show ¬v % 2 ^ 16 < 2 ^ 15 by omega)]
    norm_num [Int.cast_sub, Int.cast_natCast]
    rw [show ((v : ℤ) % 65536) = ((v % 65536 : ℕ) : ℤ) from (Int.natCast_mod v 65536).symm,
       Int.cast_natCast]
  · simp only [vicpack.get_ondie_temperature, h38]
    norm_num

/-- Witness for C9: the two signedness branches instantiated at `100`
(positive branch) and `0xFFFFFF38` (negative branch). -/
theorem claim_C9_signed_temperature_witness :
    ((100 : ℕ) % 2 ^ 16 < 2 ^ 15 ∧
      vicpack.get_ondie_temperature 100 = [(((100 : ℕ) % 2 ^ 16 : ℕ) : ℝ) / 100]) ∧
    (2 ^ 15 ≤ (0xFFFFFF38 : ℕ) % 2 ^ 16 ∧
      vicpack.get_ondie_temperature 0xFFFFFF38 =
        [((((0xFFFFFF38 : ℕ) % 2 ^ 16 : ℕ) : ℝ) - 2 ^ 16) / 100]) :=
  ⟨⟨by decide, (claim_C9_signed_temperature 100).2.1 (by decide)⟩,
   ⟨by decide, (claim_C9_signed_temperature 0xFFFFFF38).2.2.1 (by decide)⟩⟩

/-- **C10** — For every pair of 32-bit inputs that agree on their low 16
bits, every byte-swap-based decode function (ambient_light, voc_iaq,
voc_temperature, voc_humidity, voc_pressure, voc_ambient_light,
voc_sound_level, tof_distance, terminal voltage, terminal voltage diff)
returns equal outputs: the swap discards bits 16–31, so each such decode
depends only on the low 16 bits of its input. -/
theorem claim_C10_swap_low16_only (a b : ℕ) (h : a % 2 ^ 16 = b % 2 ^ 16) :
    vicpack.get_ambient_light a = vicpack.get_ambient_light b ∧
    vicpack.get_voc_iaq a = vicpack.get_voc_iaq b ∧
    vicpack.get_voc_temperature a = vicpack.get_voc_temperature b ∧
    vicpack.get_voc_humidity a = vicpack.get_voc_humidity b ∧
    vicpack.get_voc_pressure a = vicpack.get_voc_pressure b ∧
    vicpack.get_voc_ambient_light a = vicpack.get_voc_ambient_light b ∧
    vicpack.get_voc_sound_level a = vicpack.get_voc_sound_level b ∧
    vicpack.get_tof_distance a = vicpack.get_tof_distance b ∧
    vicpack.get_terminal_voltage a = vicpack.get_terminal_voltage b ∧
    vicpack.get_terminal_voltage_diff a = vicpack.get_terminal_voltage_diff b := by
  have hs : vicpack.swap16 a = vicpack.swap16 b := vicpack.swap16_congr h
  refine ⟨?_, ?_, ?_, ?_, ?_, ?_, ?_, ?_, ?_, ?_⟩ <;>
    simp only [vicpack.get_ambient_light, vicpack.get_voc_iaq,
      vicpack.get_voc_temperature, vicpack.get_voc_humidity,
      vicpack.get_voc_pressure, vicpack.get_voc_ambient_light,
      vicpack.get_voc_sound_level, vicpack.get_tof_distance,
      vicpack.get_terminal_voltage, vicpack.get_terminal_voltage_diff, hs]

/-- Witness for C10: `0x12345` and `0x2345` agree on their low 16 bits. -/
theorem claim_C10_swap_low16_only_witness :
    (0x12345 : ℕ) % 2 ^ 16 = (0x2345 : ℕ) % 2 ^ 16 ∧
    vicpack.get_ambient_light 0x12345 = vicpack.get_ambient_light 0x2345 ∧
    vicpack.get_voc_iaq 0x12345 = vicpack.get_voc_iaq 0x2345 ∧
    vicpack.get_voc_temperature 0x12345 = vicpack.get_voc_temperature 0x2345 ∧
    vicpack.get_voc_humidity 0x12345 = vicpack.get_voc_humidity 0x2345 ∧
    vicpack.get_voc_pressure 0x12345 = vicpack.get_voc_pressure 0x2345 ∧
    vicpack.get_voc_ambient_light 0x12345 = vicpack.get_voc_ambient_light 0x2345 ∧
    vicpack.get_voc_sound_level 0x12345 = vicpack.get_voc_sound_level 0x2345 ∧
    vicpack.get_tof_distance 0x12345 = vicpack.get_tof_distance 0x2345 ∧
    vicpack.get_terminal_voltage 0x12345 = vicpack.get_terminal_voltage 0x2345 ∧
    vicpack.get_terminal_voltage_diff 0x12345 = vicpack.get_terminal_voltage_diff 0x2345 :=
  ⟨by decide, claim_C10_swap_low16_only 0x12345 0x2345 (by decide)⟩

lemma abs_log_1000 : Int.log 1000 |(1000 : ℚ)| = 1 := by
  rw [abs_of_pos (by norm_num)]
  rw [show (1000 : ℚ) = ((1000 : ℕ) : ℚ) ^ (1 : ℤ) by norm_num]
  exact Int.log_zpow (by norm_num) 1

lemma abs_log_milli : Int.log 1000 |(1 / 1000 : ℚ)| = -1 := by
  rw [abs_of_pos (by norm_num)]
  rw [show (1 / 1000 : ℚ) = ((1000 : ℕ) : ℚ) ^ (-1 : ℤ) by norm_num]
  exact Int.log_zpow (by norm_num) (-1)

lemma abs_log_999 : Int.log 1000 |(999 : ℚ)| = 0 := by
  rw [abs_of_pos (by norm_num)]
  rw [show (999 : ℚ) = ((999 : ℕ) : ℚ) by norm_num, Int.log_natCast]
  exact_mod_cast Nat.log_of_lt (by norm_num)

/-- **C8** — The SI scaler satisfies `scale(1000.0) = (1.0, "k")`,
`scale(0.001) = (1.0, "m")`, `scale(0) = (0, "")`, `scale(999) = (999, "")`;
and for every nonzero input whose `degree = floor(log10(|value|)/3)`
exceeds 8 in magnitude, the prefix is clamped to the last table entry
(`"Y"` resp. `"y"`) and the scaled value is computed with the degree
clamped to `±8`. -/
theorem claim_C8_si_scaler :
    vicpack.get_si [1000] = (1, "k") ∧
    vicpack.get_si [1 / 1000] = (1, "m") ∧
    vicpack.get_si [0] = (0, "") ∧
    vicpack.get_si [999] = (999, "") ∧
    (∀ q : ℚ, q ≠ 0 → 8 < Int.log 1000 |q| →
      vicpack.get_si [q] = (q * (1000 : ℚ) ^ (-8 : ℤ), "Y")) ∧
    (∀ q : ℚ, q ≠ 0 → Int.log 1000 |q| < -8 →
      vicpack.get_si [q] = (q * (1000 : ℚ) ^ (8 : ℤ), "y")) := by
  refine ⟨?_, ?_, ?_, ?_, ?_, ?_⟩
  · simp only [vicpack.get_si, List.headD, abs_log_1000]
    norm_num [vicpack.incPrefixes]
  · simp only [vicpack.get_si, List.headD, abs_log_milli]
    norm_num [vicpack.decPrefixes]
  · simp only [vicpack.get_si, List.headD]
    norm_num
  · simp only [vicpack.get_si, List.headD, abs_log_999]
    norm_num
  · intro q hq hlog
    simp only [vicpack.get_si, List.headD]
    rw [if_pos hq]
    rw [if_neg (by omega : ¬Int.log 1000 |q| = 0),
        if_pos (by omega : (0 : ℤ) < Int.log 1000 |q|),
        if_neg (by simp only [vicpack.incPrefixes, List.length]; omega :
          ¬Int.log 1000 |q| - 1 < ((vicpack.incPrefixes.length : ℤ)))]
    simp [vicpack.incPrefixes]
  · intro q hq hlog
    simp only [vicpack.get_si, List.headD]
    rw [if_pos hq]
    rw [if_neg (by omega : ¬Int.log 1000 |q| = 0),
        if_neg (by omega : ¬(0 : ℤ) < Int.log 1000 |q|),
        if_neg (by simp only [vicpack.decPrefixes, List.length]; omega :
          ¬-Int.log 1000 |q| - 1 < ((vicpack.decPrefixes.length : ℤ)))]
    simp [vicpack.decPrefixes]

/-- Witness for C8: `10^27` has degree 9 (clamped to "Y"), `10^(-27)` has
degree `-9` (clamped to "y"). -/
theorem claim_C8_si_scaler_witness :
    ((10 ^ 27 : ℚ) ≠ 0 ∧ 8 < Int.log 1000 |(10 ^ 27 : ℚ)| ∧
      vicpack.get_si [(10 ^ 27 : ℚ)] = ((10 ^ 27 : ℚ) * (1000 : ℚ) ^ (-8 : ℤ), "Y")) ∧
    (((10 : ℚ) ^ (-27 : ℤ) : ℚ) ≠ 0 ∧ Int.log 1000 |((10 : ℚ) ^ (-27 : ℤ) : ℚ)| < -8 ∧
      vicpack.get_si [((10 : ℚ) ^ (-27 : ℤ) : ℚ)] =
        (((10 : ℚ) ^ (-27 : ℤ) : ℚ) * (1000 : ℚ) ^ (8 : ℤ), "y")) := by
  have h1 : Int.log 1000 |(10 ^ 27 : ℚ)| = 9 := by
    rw [abs_of_pos (by norm_num)]
    rw [show (10 ^ 27 : ℚ) = ((1000 : ℕ) : ℚ) ^ (9 : ℤ) by norm_num]
    exact Int.log_zpow (by norm_num) 9
  have h2 : Int.log 1000 |((10 : ℚ) ^ (-27 : ℤ) : ℚ)| = -9 := by
    rw [abs_of_pos (by positivity)]
    rw [show ((10 : ℚ) ^ (-27 : ℤ) : ℚ) = ((1000 : ℕ) : ℚ) ^ (-9 : ℤ) by
      rw [show ((1000 : ℕ) : ℚ) = (10 : ℚ) ^ (3 : ℕ) by norm_num, ← zpow_natCast, ← zpow_mul]
      norm_num]
    exact Int.log_zpow (by norm_num) (-9)
  refine ⟨⟨by norm_num, by rw [h1]; norm_num, ?_⟩, ⟨by positivity, by rw [h2]; norm_num, ?_⟩⟩
  · exact claim_C8_si_scaler.2.2.2.2.1 _ (by norm_num) (by rw [h1]; norm_num)
  · exact claim_C8_si_scaler.2.2.2.2.2 _ (by positivity) (by rw [h2]; norm_num)

/-- **C2 counterexample** — The claim says an unmatched type code (e.g.
250) produces a `DecodedMeasurement` whose value is the one-element
number list `[0]` and whose unit is the one-element list `["n/a"]`.  In
the code the untouched template holds the *string* `'0'` and the *string*
`'n/a'`, not lists, so the claim is false at type code 250. -/
theorem claim_C2_counterexample :
    vicpack.get_json vicpack.types 250 0 =
      ⟨"n/a", .jstr "0", .ustr "n/a"⟩ ∧
    vicpack.JVal.jstr "0" ≠ vicpack.JVal.jnums [0] ∧
    vicpack.JUnit.ustr "n/a" ≠ vicpack.JUnit.ulist ["n/a"] :=
  ⟨rfl, by simp, by simp⟩

/-- **C2 (amended)** — For every measurement whose typeCode matches no
entry of the registry (e.g. typeCode 250), `export()` records for it the
sentinel `DecodedMeasurement` template unchanged: key is the string
`"n/a"`, value is the *string* `"0"` (not a number list), and unit is the
*string* `"n/a"` (not a list), and no error is raised for that
measurement (the scan is total). -/
theorem claim_C2_unknown_type_sentinel (typ data : ℕ)
    (h : ∀ d ∈ vicpack.types, d.type ≠ typ) :
    vicpack.get_json vicpack.types typ data = ⟨"n/a", .jstr "0", .ustr "n/a"⟩ :=
  vicpack.get_json_no_match h data

/-- Witness for amended C2 at type code 250. -/
theorem claim_C2_unknown_type_sentinel_witness :
    (∀ d ∈ vicpack.types, d.type ≠ 250) ∧
    vicpack.get_json vicpack.types 250 7 = ⟨"n/a", .jstr "0", .ustr "n/a"⟩ :=
  ⟨by decide, claim_C2_unknown_type_sentinel 250 7 (by decide)⟩

/-- **C6** — For every packet containing exactly two driver_info
measurements separated by one non-driver data measurement,
`export().sensors` contains exactly two sensor-slot entries: the first
holds exactly the intervening data measurement in its measurements list,
the second has an empty measurements list. -/
theorem claim_C6_two_driver_slots (v : vicpack.State) (d1 t dm d2 : ℕ) (n1 n2 : String)
    (hm : v.meas = 3)
    (h0 : vicpack.get_meas v.pck 0 = .ok (vicpack.DRIVER_TYPE, d1))
    (h1 : vicpack.get_meas v.pck 1 = .ok (t, dm))
    (ht : t ≠ vicpack.DRIVER_TYPE)
    (h2 : vicpack.get_meas v.pck 2 = .ok (vicpack.DRIVER_TYPE, d2))
    (hn1 : vicpack.sensors.get? (vicpack.get_driver_info d1).driver = some n1)
    (hn2 : vicpack.sensors.get? (vicpack.get_driver_info d2).driver = some n2) :
    ∃ v', vicpack.«export» v =
      .ok (⟨[⟨((vicpack.get_driver_info d1).slot : ℤ), n1, (vicpack.get_driver_info d1).index,
              [vicpack.get_json vicpack.types t dm]⟩,
             ⟨((vicpack.get_driver_info d2).slot : ℤ), n2, (vicpack.get_driver_info d2).index,
              []⟩],
            [], v.id, v.requestId⟩, v') := by
  refine ⟨⟨v.id, v.requestId, v.meas, v.size, v.pck,
    (vicpack.get_driver_info d2).slot, (vicpack.get_driver_info d2).driver,
    (vicpack.get_driver_info d2).index, (vicpack.get_driver_info d2).enabled⟩, ?_⟩
  simp only [vicpack.«export», hm, h0]
  rw [show List.range (max 1 3) = [0, 1, 2] from rfl]
  simp only [vicpack.exportGo, vicpack.exportStep, h0, h1, h2, hn1, hn2, if_pos rfl,
    if_neg ht]
  simp

/-- Witness for C6: a 20-byte packet with driver_info (driver 1, slot 2,
index 3), then a sampling_time measurement (type 2, value 42), then
driver_info (driver 2, slot 4, index 5). -/
theorem claim_C6_two_driver_slots_witness :
    ∃ v', vicpack.«export»
        ⟨9, 7, 3, 20, [250, 1, 9, 7, 3, 1, 1, 2, 3, 1, 2, 0, 0, 0, 42, 1, 2, 4, 5, 0],
         0, 0, 0, false⟩ =
      .ok (⟨[⟨2, "SENSOR_SI7050_TEMP", 3, [vicpack.get_json vicpack.types 2 42]⟩,
             ⟨4, "SENSOR_SI7020_HUMIDITY", 5, []⟩], [], 9, 7⟩, v') :=
  claim_C6_two_driver_slots
    ⟨9, 7, 3, 20, [250, 1, 9, 7, 3, 1, 1, 2, 3, 1, 2, 0, 0, 0, 42, 1, 2, 4, 5, 0],
     0, 0, 0, false⟩
    0x01020301 2 42 0x02040500 "SENSOR_SI7050_TEMP" "SENSOR_SI7020_HUMIDITY"
    rfl rfl rfl (by decide) rfl rfl rfl

namespace vicpack

/-- The export loop's slot accumulation is independent of the incoming
instance driver state: starting from the same `val`/`new`/`sensors` but a
different `ds`, the loop yields the same result up to `ds`, and the final
`ds` either was written by a processed driver measurement (then both runs
agree on it) or is the untouched initial one. -/
lemma exportGo_ds_agnostic (pck : List ℕ) (l : List ℕ) :
    ∀ (st : ExpSt) (d : DriverInfo) (r : ExpSt),
      exportGo pck l st = .ok r →
      ∃ d', exportGo pck l ⟨st.val, st.new, st.sensors, d⟩ =
              .ok ⟨r.val, r.new, r.sensors, d'⟩ ∧
            (d' = r.ds ∨ (d' = d ∧ r.ds = st.ds)) := by
  induction l with
  | nil =>
      intro st d r h
      simp only [exportGo] at h ⊢
      obtain rfl : st = r := by injection h
      exact ⟨d, rfl, Or.inr ⟨rfl, rfl⟩⟩
  | cons m rest ih =>
      intro st d r h
      simp only [exportGo] at h ⊢
      cases hg : get_meas pck m with
      | error e0 =>
          simp only [exportStep, hg] at h
          exact Except.noConfusion h
      | ok td =>
          obtain ⟨typ, data⟩ := td
          simp only [exportStep, hg] at h ⊢
          by_cases htyp : typ = DRIVER_TYPE
          · rw [if_pos htyp] at h ⊢
            cases hk : sensors.get? (get_driver_info data).driver with
            | none =>
                simp only [hk] at h
                exact Except.noConfusion h
            | some s =>
                simp only [hk] at h ⊢
                exact ⟨r.ds, h, Or.inl rfl⟩
          · rw [if_neg htyp] at h ⊢
            obtain ⟨d', hgo, hd⟩ := ih _ d r h
            exact ⟨d', hgo, hd⟩

end vicpack

/-- A closed form for `export` when the pre-read and the loop both
succeed. -/
lemma vicpack.export_of_go (v : vicpack.State) (p : ℕ × ℕ) (st : vicpack.ExpSt)
    (h0 : vicpack.get_meas v.pck 0 = .ok p)
    (hgo : vicpack.exportGo v.pck (List.range (max 1 v.meas))
        ⟨vicpack.defaultSensor, false, [], ⟨v.slot, v.driver, v.index, v.enabled⟩⟩ = .ok st) :
    vicpack.«export» v =
      .ok (⟨st.sensors ++ [st.val], [], v.id, v.requestId⟩,
        ⟨v.id, v.requestId, v.meas, v.size, v.pck,
         st.ds.slot, st.ds.driver, st.ds.index, st.ds.enabled⟩) := by
  simp only [vicpack.«export», h0, hgo]

/-- **C7** — For every successfully loaded packet, calling `export()`
twice in succession without an intervening `add()` yields two
structurally identical `Export` values (same sensors, time, packetId,
requestId): the first call leaves no state behind that changes the result
of the second; indeed the second call returns exactly the same pair. -/
theorem claim_C7_export_idempotent (v : vicpack.State) (e : vicpack.Export) (v' : vicpack.State)
    (h : vicpack.«export» v = .ok (e, v')) :
    vicpack.«export» v' = .ok (e, v') := by
  simp only [vicpack.«export»] at h
  cases h0 : vicpack.get_meas v.pck 0 with
  | error e0 =>
      simp only [h0] at h
      exact Except.noConfusion h
  | ok p =>
      simp only [h0] at h
      cases hgo : vicpack.exportGo v.pck (List.range (max 1 v.meas))
          ⟨vicpack.defaultSensor, false, [], ⟨v.slot, v.driver, v.index, v.enabled⟩⟩ with
      | error e1 =>
          simp only [hgo] at h
          exact Except.noConfusion h
      | ok st =>
          simp only [hgo] at h
          injection h with h
          injection h with h1 h2
          subst h1
          subst h2
          obtain ⟨d', hgo', hd⟩ :=
            vicpack.exportGo_ds_agnostic v.pck (List.range (max 1 v.meas))
              ⟨vicpack.defaultSensor, false, [], ⟨v.slot, v.driver, v.index, v.enabled⟩⟩
              st.ds st hgo
          have hd2 : d' = st.ds := by
            rcases hd with h1 | ⟨h1, _⟩ <;> exact h1
          subst hd2
          exact vicpack.export_of_go _ p st h0 hgo'

/-- Witness for C7: a packet with a single driver_info measurement;
the state after the first `export` reproduces the same export. -/
theorem claim_C7_export_idempotent_witness :
    vicpack.«export» ⟨9, 7, 1, 10, [250, 1, 9, 7, 1, 1, 1, 2, 3, 1], 2, 1, 3, true⟩ =
      .ok (⟨[⟨2, "SENSOR_SI7050_TEMP", 3, []⟩], [], 9, 7⟩,
           ⟨9, 7, 1, 10, [250, 1, 9, 7, 1, 1, 1, 2, 3, 1], 2, 1, 3, true⟩) :=
  claim_C7_export_idempotent
    ⟨9, 7, 1, 10, [250, 1, 9, 7, 1, 1, 1, 2, 3, 1], 0, 0, 0, false⟩ _ _ rfl

/-- **C1 counterexample** — The claim says that for a packet whose
measurements are a non-driver measurement followed by a driver_info
measurement, `export()` appends the synthetic default slot (slot = -1,
sensorType = "UNKNOWN") holding the leading decoded measurement before
starting the driver slot, so that no measurement is dropped.  On the
packet below (sampling_time value 42, then driver_info driver 1 / slot 3)
the export contains exactly one slot — the driver slot, with an *empty*
measurement list — so the synthetic slot and its measurement were
dropped: the fake slot is created with the `new` flag still false, and
slots are only appended when `new` is set. -/
theorem claim_C1_counterexample :
    vicpack.«export»
        ⟨9, 7, 2, 15, [250, 1, 9, 7, 2, 2, 0, 0, 0, 42, 1, 1, 3, 0, 1], 0, 0, 0, false⟩ =
      .ok (⟨[⟨3, "SENSOR_SI7050_TEMP", 0, []⟩], [], 9, 7⟩,
           ⟨9, 7, 2, 15, [250, 1, 9, 7, 2, 2, 0, 0, 0, 42, 1, 1, 3, 0, 1], 3, 1, 0, true⟩) ∧
    "SENSOR_SI7050_TEMP" ≠ vicpack.DEFAULT_SENSOR_TYPE :=
  ⟨rfl, by decide⟩

namespace vicpack

/-- A single export step preserves "every recorded sensor type comes from
the sensor-name table". -/
lemma step_good {pck : List ℕ} {st st' : ExpSt} {m : ℕ}
    (h : exportStep pck st m = .ok st')
    (hval : st.val.sensorType ∈ sensors)
    (hsens : ∀ s ∈ st.sensors, s.sensorType ∈ sensors) :
    st'.val.sensorType ∈ sensors ∧ ∀ s ∈ st'.sensors, s.sensorType ∈ sensors := by
  simp only [exportStep] at h
  cases hg : get_meas pck m with
  | error e0 =>
      simp only [hg] at h
      exact Except.noConfusion h
  | ok td =>
      obtain ⟨typ, data⟩ := td
      simp only [hg] at h
      by_cases htyp : typ = DRIVER_TYPE
      · rw [if_pos htyp] at h
        cases hk : sensors.get? (get_driver_info data).driver with
        | none =>
            simp only [hk] at h
            exact Except.noConfusion h
        | some s =>
            simp only [hk] at h
            injection h with h
            subst h
            refine ⟨List.get?_mem hk, ?_⟩
            intro x hx
            by_cases hnew : st.new
            · simp only [hnew, if_true, List.mem_append, List.mem_singleton] at hx
              rcases hx with hx | hx
              · exact hsens x hx
              · subst hx
                exact hval
            · simp only [hnew, if_false] at hx
              exact hsens x hx
      · rw [if_neg htyp] at h
        injection h with h
        subst h
        exact ⟨hval, hsens⟩

/-- The export loop preserves "every recorded sensor type comes from the
sensor-name table". -/
lemma go_good {pck : List ℕ} :
    ∀ (l : List ℕ) (st stF : ExpSt),
      exportGo pck l st = .ok stF →
      st.val.sensorType ∈ sensors →
      (∀ s ∈ st.sensors, s.sensorType ∈ sensors) →
      stF.val.sensorType ∈ sensors ∧ ∀ s ∈ stF.sensors, s.sensorType ∈ sensors := by
  intro l
  induction l with
  | nil =>
      intro st stF h hval hsens
      simp only [exportGo] at h
      obtain rfl : st = stF := by injection h
      exact ⟨hval, hsens⟩
  | cons m rest ih =>
      intro st stF h hval hsens
      simp only [exportGo] at h
      cases hstep : exportStep pck st m with
      | error e0 =>
          rw [hstep] at h
          exact Except.noConfusion h
      | ok st1 =>
          rw [hstep] at h
          obtain ⟨h1, h2⟩ := step_good hstep hval hsens
          exact ih st1 stF h h1 h2

/-- Before any driver measurement has been processed the `new` flag is
still false, so once some index of the remaining list carries a
driver_info measurement, every slot surviving to the end of the loop has
a table sensor type — the synthetic slot is discarded. -/
lemma go_drop {pck : List ℕ} :
    ∀ (l : List ℕ) (st stF : ExpSt),
      exportGo pck l st = .ok stF →
      st.new = false →
      (∀ s ∈ st.sensors, s.sensorType ∈ sensors) →
      (∃ j ∈ l, ∃ d, get_meas pck j = .ok (DRIVER_TYPE, d)) →
      stF.val.sensorType ∈ sensors ∧ ∀ s ∈ stF.sensors, s.sensorType ∈ sensors := by
  intro l
  induction l with
  | nil =>
      intro st stF h hnew hsens hex
      rcases hex with ⟨j, hj, _⟩
      simp at hj
  | cons m rest ih =>
      intro st stF h hnew hsens hex
      simp only [exportGo] at h
      cases hstep : exportStep pck st m with
      | error e0 =>
          rw [hstep] at h
          exact Except.noConfusion h
      | ok st1 =>
          rw [hstep] at h
          cases hg : get_meas pck m with
          | error e0 =>
              simp only [exportStep, hg] at hstep
              exact Except.noConfusion hstep
          | ok td =>
              obtain ⟨typ, data⟩ := td
              by_cases htyp : typ = DRIVER_TYPE
              · simp only [exportStep, hg, if_pos htyp] at hstep
                cases hk : sensors.get? (get_driver_info data).driver with
                | none =>
                    simp only [hk] at hstep
                    exact Except.noConfusion hstep
                | some s =>
                    simp only [hk] at hstep
                    injection hstep with hstep
                    subst hstep
                    refine go_good rest _ stF h (List.get?_mem hk) ?_
                    intro x hx
                    simp only [hnew, if_false] at hx
                    exact hsens x hx
              · simp only [exportStep, hg, if_neg htyp] at hstep
                injection hstep with hstep
                subst hstep
                rcases hex with ⟨j, hj, d, hd⟩
                refine ih _ stF h hnew hsens ⟨j, ?_, d, hd⟩
                rcases List.mem_cons.mp hj with rfl | hjr
                · rw [hd] at hg
                  injection hg with hg1
                  injection hg1 with hga hgb
                  exact absurd hga.symm htyp
                · exact hjr

end vicpack

/-- **C1 (amended)** — When any driver_info measurement is among the
processed measurement indices, the synthetic default slot (slot = -1,
sensorType = "UNKNOWN") is *not* part of `export().sensors`: every
exported slot carries a sensor type from the sensor-name table (hence
none is "UNKNOWN"), so the leading decoded measurements collected in the
synthetic slot before the first driver_info are dropped from the export
rather than preserved.  (The synthetic slot is exported only when the
packet contains no driver_info measurement at all.) -/
theorem claim_C1_leading_measurements_dropped (v : vicpack.State) (e : vicpack.Export)
    (v' : vicpack.State)
    (h : vicpack.«export» v = .ok (e, v'))
    (hdrv : ∃ j ∈ List.range (max 1 v.meas), ∃ d,
      vicpack.get_meas v.pck j = .ok (vicpack.DRIVER_TYPE, d)) :
    ∀ s ∈ e.sensors, s.sensorType ∈ vicpack.sensors ∧
      s.sensorType ≠ vicpack.DEFAULT_SENSOR_TYPE := by
  simp only [vicpack.«export»] at h
  cases h0 : vicpack.get_meas v.pck 0 with
  | error e0 =>
      simp only [h0] at h
      exact Except.noConfusion h
  | ok p =>
      simp only [h0] at h
      cases hgo : vicpack.exportGo v.pck (List.range (max 1 v.meas))
          ⟨vicpack.defaultSensor, false, [], ⟨v.slot, v.driver, v.index, v.enabled⟩⟩ with
      | error e1 =>
          simp only [hgo] at h
          exact Except.noConfusion h
      | ok st =>
          simp only [hgo] at h
          injection h with h
          injection h with h1 h2
          subst h1
          obtain ⟨hval, hsens⟩ :=
            vicpack.go_drop (List.range (max 1 v.meas)) _ st hgo rfl (by simp) hdrv
          intro s hs
          have hmem : s.sensorType ∈ vicpack.sensors := by
            rcases List.mem_append.mp hs with hs' | hs'
            · exact hsens s hs'
            · rw [List.mem_singleton.mp hs']
              exact hval
          refine ⟨hmem, ?_⟩
          intro heq
          rw [heq] at hmem
          exact absurd hmem (by decide)

/-- Witness for amended C1: sampling_time then driver_info (driver 2,
slot 9, index 8); the only exported slot is the driver slot. -/
theorem claim_C1_leading_measurements_dropped_witness :
    "SENSOR_SI7020_HUMIDITY" ∈ vicpack.sensors ∧
    "SENSOR_SI7020_HUMIDITY" ≠ vicpack.DEFAULT_SENSOR_TYPE :=
  claim_C1_leading_measurements_dropped
    ⟨5, 6, 2, 15, [250, 1, 5, 6, 2, 2, 0, 0, 0, 7, 1, 2, 9, 8, 0], 0, 0, 0, false⟩
    ⟨[⟨9, "SENSOR_SI7020_HUMIDITY", 8, []⟩], [], 5, 6⟩
    ⟨5, 6, 2, 15, [250, 1, 5, 6, 2, 2, 0, 0, 0, 7, 1, 2, 9, 8, 0], 9, 2, 8, false⟩
    rfl ⟨1, by decide, 0x02090800, rfl⟩
    ⟨9, "SENSOR_SI7020_HUMIDITY", 8, []⟩ (by simp)
